import Mathlib

/-!
Shallow embedding of `tk-auth` (src/src/main.rs): a minimal session-issuing
and authentication web service. We model the identifier codec
(URL-safe unpadded base64 via the `base64` crate), the `SessionId` decoding
(`TryFrom<&str> for SessionId`, which uses `decode_slice` into a
zero-initialized 16-byte buffer), the session store
(`BTreeMap<SessionId, Arc<RwLock<Session>>>`), and the three HTTP handlers
`post_new_session`, `post_authenticate`, `get_session_state` as pure
state-passing functions `Store -> (HttpResponse, Store)`.

Bytes are modelled as `Nat` values `< 256`; base64 symbols as `Nat`
values `< 64`.
-/

namespace TkAuth

/-- The URL-safe base64 alphabet used by
`base64::engine::general_purpose::URL_SAFE_NO_PAD` (RFC 4648 section 5). -/
def b64alphabet : List Char :=
  ['A', 'B', 'C', 'D', 'E', 'F', 'G', 'H', 'I', 'J', 'K', 'L', 'M',
   'N', 'O', 'P', 'Q', 'R', 'S', 'T', 'U', 'V', 'W', 'X', 'Y', 'Z',
   'a', 'b', 'c', 'd', 'e', 'f', 'g', 'h', 'i', 'j', 'k', 'l', 'm',
   'n', 'o', 'p', 'q', 'r', 's', 't', 'u', 'v', 'w', 'x', 'y', 'z',
   '0', '1', '2', '3', '4', '5', '6', '7', '8', '9', '-', '_']

/-- Symbol value (0..63) to alphabet character (encode table). -/
def b64char (n : Nat) : Char := b64alphabet.getD n 'A'

/-- Alphabet character to symbol value; `none` for characters outside the
URL-safe alphabet (including the padding character, which the engine's
`RequireNone` padding mode rejects). -/
def b64val (c : Char) : Option Nat := b64alphabet.findIdx? (fun a => a == c)

/-- Byte list to 6-bit symbol list, processing 3-byte groups as the
`base64` crate's encoder does; a trailing group of 2 bytes yields 3 symbols
and a trailing single byte yields 2 symbols, with the unused low bits of the
final symbol zero. -/
def encodeChunks : List Nat → List Nat
  | b0 :: b1 :: b2 :: rest =>
      b0 / 4 :: (b0 % 4 * 16 + b1 / 16) :: (b1 % 16 * 4 + b2 / 64) ::
        b2 % 64 :: encodeChunks rest
  | [b0, b1] => [b0 / 4, b0 % 4 * 16 + b1 / 16, b1 % 16 * 4]
  | [b0] => [b0 / 4, b0 % 4 * 16]
  | [] => []

/-- 6-bit symbol list to byte list, as the `base64` crate's decoder:
a trailing single symbol is an invalid length; for trailing groups of 2 or
3 symbols the unused low bits of the last symbol must be zero
(`decode_allow_trailing_bits` is false for `URL_SAFE_NO_PAD`). -/
def decodeChunks : List Nat → Option (List Nat)
  | s0 :: s1 :: s2 :: s3 :: rest =>
      (decodeChunks rest).map (fun bs =>
        (s0 * 4 + s1 / 16) :: (s1 % 16 * 16 + s2 / 4) :: (s2 % 4 * 64 + s3) :: bs)
  | [s0, s1, s2] =>
      if s2 % 4 = 0 then some [s0 * 4 + s1 / 16, s1 % 16 * 16 + s2 / 4] else none
  | [s0, s1] => if s1 % 16 = 0 then some [s0 * 4 + s1 / 16] else none
  | [_] => none
  | [] => some []

/-- Map each element through a fallible function, failing if any element
fails (the decoder's character-validation pass). -/
def mapOpt (f : α → Option β) : List α → Option (List β)
  | [] => some []
  | a :: as =>
      match f a, mapOpt f as with
      | some b, some bs => some (b :: bs)
      | _, _ => none

/-- `URL_SAFE_NO_PAD.encode`: bytes to string. -/
def b64encode (bs : List Nat) : String :=
  String.mk ((encodeChunks bs).map b64char)

/-- `URL_SAFE_NO_PAD` decode of a whole string: fails on any character
outside the alphabet, on length 1 mod 4, and on nonzero trailing bits. -/
def b64decode (s : String) : Option (List Nat) :=
  match mapOpt b64val s.toList with
  | none => none
  | some syms => decodeChunks syms

/-- `SessionId`: the 16-byte identifier (`[u8; 16]` in the source),
modelled as a byte list; every value the program constructs has length 16. -/
structure SessionId where
  id : List Nat
  deriving DecidableEq, Repr

/-- `TryFrom<&str> for SessionId`: `decode_slice(value, &mut id)` where
`id` is a zero-initialized 16-byte buffer. `decode_slice` (base64 crate,
exact-output-size semantics) succeeds iff the string is valid base64 whose
decoded length fits the buffer, writing only the decoded bytes and leaving
the rest of the buffer zero; the written length is discarded (`Ok(_)`). -/
def SessionId.tryFrom (value : String) : Option SessionId :=
  match b64decode value with
  | none => none
  | some bs =>
      if bs.length ≤ 16 then some ⟨bs ++ List.replicate (16 - bs.length) 0⟩
      else none

/-- `From<&SessionId> for String`: `URL_SAFE_NO_PAD.encode(value.id)`. -/
def SessionId.encode (sid : SessionId) : String := b64encode sid.id

/-- The `Session` record: `user`, `description`, `authenticated`, with
serde serialization order equal to declaration order. -/
structure Session where
  user : Option String
  description : String
  authenticated : Bool
  deriving DecidableEq, Repr

/-- The session store `BTreeMap<SessionId, Arc<RwLock<Session>>>`, modelled
as an association list; only `get` and `insert` are observable to the
handlers, so the tree structure is irrelevant. The `Arc<RwLock<_>>`
indirection means a handler mutating a looked-up session mutates the store
entry in place; we model that by re-inserting the mutated session. -/
abbrev Store := List (SessionId × Session)

/-- `BTreeMap::get`, modelled on the association list. -/
def Store.get : Store → SessionId → Option Session
  | [], _ => none
  | (k, v) :: rest, key => if k = key then some v else Store.get rest key

/-- `BTreeMap::insert`: replaces the value under an existing key, otherwise
adds the entry. -/
def Store.insert : Store → SessionId → Session → Store
  | [], key, val => [(key, val)]
  | (k, v) :: rest, key, val =>
      if k = key then (key, val) :: rest else (k, v) :: Store.insert rest key val

/-- An HTTP response: status code and body (the `Content-Type:
application/json` header, identical on every path, is omitted). -/
structure HttpResponse where
  status : Nat
  body : String
  deriving DecidableEq, Repr

/-- serde_json escaping of one string character: `"` and `\` get a
backslash escape, the control characters use the short forms
`\b \t \n \f \r` or `\u00XX`, everything else is passed through. -/
def jsonEscapeChar (c : Char) : List Char :=
  if c = '"' then ['\\', '"']
  else if c = '\\' then ['\\', '\\']
  else if c = '\x08' then ['\\', 'b']
  else if c = '\x09' then ['\\', 't']
  else if c = '\x0a' then ['\\', 'n']
  else if c = '\x0c' then ['\\', 'f']
  else if c = '\x0d' then ['\\', 'r']
  else if c.toNat < 32 then
    ['\\', 'u', '0', '0', "0123456789abcdef".toList.getD (c.toNat / 16) '0',
     "0123456789abcdef".toList.getD (c.toNat % 16) '0']
  else [c]

/-- serde_json escaping of a string (without the surrounding quotes). -/
def jsonEscape (s : String) : String :=
  String.mk (List.flatten (s.toList.map jsonEscapeChar))

/-- `serde_json::to_string` of a `Session` (derived `Serialize`, fields in
declaration order, compact output). -/
def sessionToJson (s : Session) : String :=
  "\x7b\"user\":" ++
    (match s.user with
     | none => "null"
     | some u => "\"" ++ jsonEscape u ++ "\"") ++
  ",\"description\":\"" ++ jsonEscape s.description ++
  "\",\"authenticated\":" ++ (if s.authenticated then "true" else "false") ++
  "\x7d"

/-- Handler `post_new_session`: the 16 random bytes produced by
`ring::rand::generate` are passed in as `genId` (the RNG is an input of the
model). Constructs the fresh session, inserts it, and returns the serde
JSON of `NewSessionResponse` (its `id_base64` string is serde-escaped,
though base64 output never needs escaping). -/
def post_new_session (genId : List Nat) (st : Store) : HttpResponse × Store :=
  let session_id : SessionId := ⟨genId⟩
  let session : Session :=
    { user := none, description := "Some session...", authenticated := false }
  let st1 := Store.insert st session_id session
  (⟨200, "\x7b\"id_base64\":\"" ++ jsonEscape (b64encode genId) ++ "\"\x7d"⟩, st1)

/-- The form body of `POST /api/authenticate` (`AuthenticateForm`). -/
structure AuthenticateForm where
  session_id : String
  user : String
  password : String
  deriving DecidableEq, Repr

/-- Handler `post_authenticate`. Error bodies are built with `format!`
(raw concatenation of the request's `session_id` string, no JSON
escaping); the literal misspelling `succesfully` is the source's. The
`password` field of the form is never read. -/
def post_authenticate (st : Store) (form : AuthenticateForm) :
    HttpResponse × Store :=
  match SessionId.tryFrom form.session_id with
  | none => (⟨400, "\x7b\"error\":\"malformed session id\"\x7d"⟩, st)
  | some session_id =>
      match Store.get st session_id with
      | none =>
          (⟨400, "\x7b\"error\":\"session " ++ form.session_id ++
                 " doesn't exist\"\x7d"⟩, st)
      | some session =>
          if session.authenticated then
            (⟨400, "\x7b\"error\":\"session " ++ form.session_id ++
                   " already authenticated\"\x7d"⟩, st)
          else
            (⟨200, "\x7b\"success\":\"session " ++ form.session_id ++
                   " authenticated succesfully\"\x7d"⟩,
             Store.insert st session_id
               { session with authenticated := true, user := some form.user })

/-- Handler `get_session_state` (`GET /api/session_state`); `session_id`
is the query parameter. Read-only: the store component of the result is
the input store on every path. -/
def get_session_state (st : Store) (session_id : String) :
    HttpResponse × Store :=
  match SessionId.tryFrom session_id with
  | none => (⟨400, "\x7b\"error\":\"malformed session id\"\x7d"⟩, st)
  | some sid =>
      match Store.get st sid with
      | some session => (⟨200, sessionToJson session⟩, st)
      | none =>
          (⟨400, "\x7b\"error\":\"session " ++ session_id ++
                 " doesn't exist\"\x7d"⟩, st)

/-- A sequence of `post_authenticate` calls run in some serialization
order: the session-level write lock serializes concurrent authenticate
calls, so any concurrent execution of N calls is observationally one of
the N! sequential orders, all of which this function (quantified over the
list) covers. Returns the responses in order and the final store. -/
def runAuths (st : Store) : List AuthenticateForm → List HttpResponse × Store
  | [] => ([], st)
  | f :: rest =>
      let r := post_authenticate st f
      let rr := runAuths r.2 rest
      (r.1 :: rr.1, rr.2)

/-! ### Codec lemmas -/

/-- The decode table inverts the encode table on symbol values. -/
theorem b64val_b64char (n : Nat) (h : n < 64) : b64val (b64char n) = some n := by
  have key : ∀ i : Fin 64, b64val (b64char i.val) = some i.val := by decide
  exact key ⟨n, h⟩

/-- Encoding bytes yields 6-bit symbols. -/
theorem encodeChunks_lt :
    ∀ bs : List Nat, (∀ b ∈ bs, b < 256) → ∀ s ∈ encodeChunks bs, s < 64
  | [], _, s, hs => by simp [encodeChunks] at hs
  | [b0], h, s, hs => by
      have hb0 : b0 < 256 := h b0 (by simp)
      simp only [encodeChunks, List.mem_cons, List.not_mem_nil, or_false] at hs
      rcases hs with rfl | rfl <;> omega
  | [b0, b1], h, s, hs => by
      have hb0 : b0 < 256 := h b0 (by simp)
      have hb1 : b1 < 256 := h b1 (by simp)
      simp only [encodeChunks, List.mem_cons, List.not_mem_nil, or_false] at hs
      rcases hs with rfl | rfl | rfl <;> omega
  | b0 :: b1 :: b2 :: rest, h, s, hs => by
      have hb0 : b0 < 256 := h b0 (by simp)
      have hb1 : b1 < 256 := h b1 (by simp)
      have hb2 : b2 < 256 := h b2 (by simp)
      have ih := encodeChunks_lt rest (fun b hb => h b (by simp [hb]))
      simp only [encodeChunks, List.mem_cons] at hs
      rcases hs with rfl | rfl | rfl | rfl | hmem
      · omega
      · omega
      · omega
      · omega
      · exact ih s hmem

/-- Decoding inverts encoding at the symbol level, for byte inputs. -/
theorem decodeChunks_encodeChunks :
    ∀ bs : List Nat, (∀ b ∈ bs, b < 256) →
      decodeChunks (encodeChunks bs) = some bs
  | [], _ => rfl
  | [b0], h => by
      have hb0 : b0 < 256 := h b0 (by simp)
      simp only [encodeChunks, decodeChunks]
      rw [if_pos (by omega : b0 % 4 * 16 % 16 = 0)]
      have e0 : b0 / 4 * 4 + b0 % 4 * 16 / 16 = b0 := by omega
      rw [e0]
  | [b0, b1], h => by
      have hb0 : b0 < 256 := h b0 (by simp)
      have hb1 : b1 < 256 := h b1 (by simp)
      simp only [encodeChunks, decodeChunks]
      rw [if_pos (by omega : b1 % 16 * 4 % 4 = 0)]
      have e0 : b0 / 4 * 4 + (b0 % 4 * 16 + b1 / 16) / 16 = b0 := by omega
      have e1 : (b0 % 4 * 16 + b1 / 16) % 16 * 16 + b1 % 16 * 4 / 4 = b1 := by
        omega
      rw [e0, e1]
  | b0 :: b1 :: b2 :: rest, h => by
      have hb0 : b0 < 256 := h b0 (by simp)
      have hb1 : b1 < 256 := h b1 (by simp)
      have hb2 : b2 < 256 := h b2 (by simp)
      have ih := decodeChunks_encodeChunks rest (fun b hb => h b (by simp [hb]))
      simp only [encodeChunks, decodeChunks, ih, Option.map_some]
      have e0 : b0 / 4 * 4 + (b0 % 4 * 16 + b1 / 16) / 16 = b0 := by omega
      have e1 : (b0 % 4 * 16 + b1 / 16) % 16 * 16 + (b1 % 16 * 4 + b2 / 64) / 4
          = b1 := by omega
      have e2 : (b1 % 16 * 4 + b2 / 64) % 4 * 64 + b2 % 64 = b2 := by omega
      rw [e0, e1, e2]
      rfl

/-- Character validation succeeds on encoder output. -/
theorem mapOpt_b64val_map :
    ∀ syms : List Nat, (∀ s ∈ syms, s < 64) →
      mapOpt b64val (syms.map b64char) = some syms
  | [], _ => rfl
  | s :: rest, h => by
      have hs := b64val_b64char s (h s (by simp))
      have ih := mapOpt_b64val_map rest (fun t ht => h t (by simp [ht]))
      simp only [List.map_cons, mapOpt, hs, ih]

/-- Round trip at the string level for any byte list. -/
theorem b64decode_b64encode (bs : List Nat) (h : ∀ b ∈ bs, b < 256) :
    b64decode (b64encode bs) = some bs := by
  have hlt := encodeChunks_lt bs h
  have hmap := mapOpt_b64val_map (encodeChunks bs) hlt
  have hdec := decodeChunks_encodeChunks bs h
  simp only [b64decode, b64encode]
  have htl : (String.mk ((encodeChunks bs).map b64char)).toList
      = (encodeChunks bs).map b64char := rfl
  rw [htl, hmap]
  exact hdec

/-- `TryFrom` inverts `From` on 16-byte identifiers: the decoded length is
exactly 16, so the zero-padding is empty. -/
theorem tryFrom_b64encode (v : List Nat) (hlen : v.length = 16)
    (h : ∀ b ∈ v, b < 256) :
    SessionId.tryFrom (b64encode v) = some ⟨v⟩ := by
  simp only [SessionId.tryFrom, b64decode_b64encode v h, hlen]
  norm_num

/-- Escaping a list of characters that need no escape is the identity. -/
theorem flatten_map_escape (l : List Char) (h : ∀ c ∈ l, jsonEscapeChar c = [c]) :
    List.flatten (l.map jsonEscapeChar) = l := by
  induction l with
  | nil => rfl
  | cons c rest ih =>
      simp only [List.map_cons, List.flatten_cons, h c (by simp),
        ih (fun d hd => h d (by simp [hd])), List.singleton_append]

/-- serde escaping is the identity on encoder output (the base64 alphabet
contains no character that needs escaping). -/
theorem jsonEscape_b64encode (bs : List Nat) (h : ∀ s ∈ encodeChunks bs, s < 64) :
    jsonEscape (b64encode bs) = b64encode bs := by
  have key : ∀ i : Fin 64, jsonEscapeChar (b64char i.val) = [b64char i.val] := by
    decide
  simp only [jsonEscape, b64encode]
  congr 1
  have htl : (String.mk ((encodeChunks bs).map b64char)).toList
      = (encodeChunks bs).map b64char := rfl
  rw [htl]
  apply flatten_map_escape
  intro c hc
  rcases List.mem_map.mp hc with ⟨s, hs, rfl⟩
  exact key ⟨s, h s hs⟩

/-! ### Store lemmas -/

/-- Looking up the key just inserted yields the inserted value. -/
theorem Store.get_insert_self (st : Store) (k : SessionId) (v : Session) :
    Store.get (Store.insert st k v) k = some v := by
  induction st with
  | nil => simp [Store.insert, Store.get]
  | cons hd tl ih =>
      obtain ⟨k0, v0⟩ := hd
      by_cases hk : k0 = k
      · subst hk
        simp [Store.insert, Store.get]
      · simp [Store.insert, Store.get, hk, ih]

/-- Insertion does not change the value under any other key. -/
theorem Store.get_insert_ne (st : Store) (k k1 : SessionId) (v : Session)
    (hne : k1 ≠ k) : Store.get (Store.insert st k v) k1 = Store.get st k1 := by
  have hne1 : k ≠ k1 := fun h => hne h.symm
  induction st with
  | nil => simp [Store.insert, Store.get, hne1]
  | cons hd tl ih =>
      obtain ⟨k0, v0⟩ := hd
      by_cases hk : k0 = k
      · subst hk
        simp [Store.insert, Store.get, hne1]
      · simp only [Store.insert, if_neg hk, Store.get]
        by_cases hk1 : k0 = k1
        · simp [hk1]
        · simp [hk1, ih]

/-- A key present before an insertion is present after it. -/
theorem Store.get_insert_isSome (st : Store) (k k1 : SessionId) (v v1 : Session)
    (h : Store.get st k1 = some v1) :
    ∃ v2, Store.get (Store.insert st k v) k1 = some v2 := by
  by_cases hk : k1 = k
  · subst hk
    exact ⟨v, Store.get_insert_self st k1 v⟩
  · exact ⟨v1, by rw [Store.get_insert_ne st k k1 v hk]; exact h⟩

/-- Every authenticate call against an already-authenticated session fails
with the already-authenticated error and leaves the store unchanged. -/
theorem runAuths_already (forms : List AuthenticateForm) (st : Store)
    (sid : SessionId) (sess : Session)
    (hall : ∀ f ∈ forms, SessionId.tryFrom f.session_id = some sid)
    (hget : Store.get st sid = some sess)
    (hauth : sess.authenticated = true) :
    runAuths st forms =
      (forms.map (fun f =>
        ⟨400, "\x7b\"error\":\"session " ++ f.session_id ++
              " already authenticated\"\x7d"⟩), st) := by
  induction forms with
  | nil => rfl
  | cons f rest ih =>
      have hf := hall f (by simp)
      have hr : post_authenticate st f =
          (⟨400, "\x7b\"error\":\"session " ++ f.session_id ++
                 " already authenticated\"\x7d"⟩, st) := by
        simp only [post_authenticate, hf, hget, hauth, if_true]
      have ihr := ih (fun g hg => hall g (by simp [hg]))
      simp only [runAuths, hr, ihr, List.map_cons]

/-- The read-state handler returns its store unchanged on every input. -/
theorem get_session_state_snd (st : Store) (s : String) :
    (get_session_state st s).2 = st := by
  cases hd : SessionId.tryFrom s with
  | none => simp [get_session_state, hd]
  | some sid =>
      cases hg : Store.get st sid with
      | none => simp [get_session_state, hd, hg]
      | some sess => simp [get_session_state, hd, hg]

/-- The authenticate handler either leaves the store unchanged or inserts
the mutated session under the decoded identifier of a present,
unauthenticated session. -/
theorem post_authenticate_store_cases (st : Store) (form : AuthenticateForm) :
    (post_authenticate st form).2 = st ∨
      ∃ sid sess, SessionId.tryFrom form.session_id = some sid ∧
        Store.get st sid = some sess ∧ sess.authenticated = false ∧
        (post_authenticate st form).2 =
          Store.insert st sid
            { sess with authenticated := true, user := some form.user } := by
  cases hdec : SessionId.tryFrom form.session_id with
  | none => exact Or.inl (by simp [post_authenticate, hdec])
  | some sid =>
      cases hget : Store.get st sid with
      | none => exact Or.inl (by simp [post_authenticate, hdec, hget])
      | some sess =>
          cases hauth : sess.authenticated with
          | true => exact Or.inl (by simp [post_authenticate, hdec, hget, hauth])
          | false =>
              exact Or.inr ⟨sid, sess, rfl, hget, hauth,
                by simp only [post_authenticate, hdec, hget, hauth,
                  Bool.false_eq_true, if_false]⟩

/-! ### Claim theorems -/

/-- C1: evaluation of the decoder at the failing input. The spec requires
every string that does not decode to exactly 16 bytes to be rejected with
`MalformedId`, but the code accepts the empty string (which decodes to 0
bytes) and zero-pads it to the all-zero identifier, because the written
length returned by `decode_slice` is discarded. -/
theorem c1_empty_string_accepted :
    SessionId.tryFrom "" = some ⟨List.replicate 16 0⟩ ∧
      SessionId.tryFrom "AA" = some ⟨List.replicate 16 0⟩ := by
  decide

/-- C5: for every 16-byte value `v`, decoding the URL-safe unpadded base64
encoding of `v` succeeds (no error) and yields `v` back, both at the raw
codec level and through `SessionId` decoding. -/
theorem c5_decode_encode_roundtrip (v : List Nat) (hlen : v.length = 16)
    (hb : ∀ b ∈ v, b < 256) :
    b64decode (b64encode v) = some v ∧
      SessionId.tryFrom (b64encode v) = some ⟨v⟩ :=
  ⟨b64decode_b64encode v hb, tryFrom_b64encode v hlen hb⟩

theorem c5_witness :
    b64decode (b64encode [0, 1, 2, 3, 4, 5, 6, 7, 8, 9, 10, 11, 12, 13, 14, 255])
        = some [0, 1, 2, 3, 4, 5, 6, 7, 8, 9, 10, 11, 12, 13, 14, 255] ∧
      SessionId.tryFrom
          (b64encode [0, 1, 2, 3, 4, 5, 6, 7, 8, 9, 10, 11, 12, 13, 14, 255])
        = some ⟨[0, 1, 2, 3, 4, 5, 6, 7, 8, 9, 10, 11, 12, 13, 14, 255]⟩ :=
  c5_decode_encode_roundtrip
    [0, 1, 2, 3, 4, 5, 6, 7, 8, 9, 10, 11, 12, 13, 14, 255]
    (by decide) (by decide)

/-- C10: `SessionId` decoding accepts every valid URL-safe unpadded base64
string that decodes to at most 16 bytes, zero-filling the unwritten tail of
the 16-byte buffer; consequently it is not injective (the distinct strings
`""` and `"AA"` both decode to the all-zero identifier), and re-encoding an
accepted string's identifier need not give the string back. -/
theorem c10_decode_zero_pads (s : String) (bs : List Nat)
    (hdec : b64decode s = some bs) (hlen : bs.length ≤ 16) :
    SessionId.tryFrom s = some ⟨bs ++ List.replicate (16 - bs.length) 0⟩ ∧
      (SessionId.tryFrom "" = SessionId.tryFrom "AA" ∧ "" ≠ "AA") ∧
      (SessionId.tryFrom "AA" = some ⟨List.replicate 16 0⟩ ∧
        SessionId.encode ⟨List.replicate 16 0⟩ ≠ "AA") := by
  refine ⟨?_, by decide, by decide⟩
  simp only [SessionId.tryFrom, hdec, if_pos hlen]

theorem c10_witness :
    SessionId.tryFrom "AA" = some ⟨[0] ++ List.replicate 15 0⟩ ∧
      (SessionId.tryFrom "" = SessionId.tryFrom "AA" ∧ "" ≠ "AA") ∧
      (SessionId.tryFrom "AA" = some ⟨List.replicate 16 0⟩ ∧
        SessionId.encode ⟨List.replicate 16 0⟩ ≠ "AA") :=
  c10_decode_zero_pads "AA" [0] (by decide) (by decide)

/-- C2: authenticating a session that is present and unauthenticated sets
`authenticated = true` and `user = Some(user)` in the store and returns
200 with the success body echoing the request's `session_id` string
(including the source's misspelling). -/
theorem c2_authenticate_success (st : Store) (form : AuthenticateForm)
    (sid : SessionId) (sess : Session)
    (hdec : SessionId.tryFrom form.session_id = some sid)
    (hget : Store.get st sid = some sess)
    (hauth : sess.authenticated = false) :
    (post_authenticate st form).1 =
      ⟨200, "\x7b\"success\":\"session " ++ form.session_id ++
            " authenticated succesfully\"\x7d"⟩ ∧
      Store.get (post_authenticate st form).2 sid =
        some { sess with authenticated := true, user := some form.user } := by
  constructor
  · simp only [post_authenticate, hdec, hget, hauth, Bool.false_eq_true, if_false]
  · simp only [post_authenticate, hdec, hget, hauth, Bool.false_eq_true, if_false]
    exact Store.get_insert_self st sid _

theorem c2_witness :
    (post_authenticate
        [(⟨List.replicate 16 0⟩, ⟨none, "Some session...", false⟩)]
        ⟨"AAAAAAAAAAAAAAAAAAAAAA", "alice", "pw"⟩).1 =
      ⟨200, "\x7b\"success\":\"session " ++ "AAAAAAAAAAAAAAAAAAAAAA" ++
            " authenticated succesfully\"\x7d"⟩ ∧
      Store.get (post_authenticate
          [(⟨List.replicate 16 0⟩, ⟨none, "Some session...", false⟩)]
          ⟨"AAAAAAAAAAAAAAAAAAAAAA", "alice", "pw"⟩).2
          ⟨List.replicate 16 0⟩ =
        some ⟨some "alice", "Some session...", true⟩ :=
  c2_authenticate_success
    [(⟨List.replicate 16 0⟩, ⟨none, "Some session...", false⟩)]
    ⟨"AAAAAAAAAAAAAAAAAAAAAA", "alice", "pw"⟩
    ⟨List.replicate 16 0⟩ ⟨none, "Some session...", false⟩
    (by decide) (by decide) (by decide)

/-- C3: authenticating a session that is present and already authenticated
returns 400 with the already-authenticated body echoing the request's
`session_id` string, and returns the store unchanged (so the session's
`user`, `description` and `authenticated` fields are untouched). -/
theorem c3_already_authenticated (st : Store) (form : AuthenticateForm)
    (sid : SessionId) (sess : Session)
    (hdec : SessionId.tryFrom form.session_id = some sid)
    (hget : Store.get st sid = some sess)
    (hauth : sess.authenticated = true) :
    post_authenticate st form =
      (⟨400, "\x7b\"error\":\"session " ++ form.session_id ++
             " already authenticated\"\x7d"⟩, st) := by
  simp only [post_authenticate, hdec, hget, hauth, if_true]

theorem c3_witness :
    post_authenticate
        [(⟨List.replicate 16 0⟩, ⟨some "alice", "Some session...", true⟩)]
        ⟨"AAAAAAAAAAAAAAAAAAAAAA", "bob", "pw"⟩ =
      (⟨400, "\x7b\"error\":\"session " ++ "AAAAAAAAAAAAAAAAAAAAAA" ++
             " already authenticated\"\x7d"⟩,
       [(⟨List.replicate 16 0⟩, ⟨some "alice", "Some session...", true⟩)]) :=
  c3_already_authenticated
    [(⟨List.replicate 16 0⟩, ⟨some "alice", "Some session...", true⟩)]
    ⟨"AAAAAAAAAAAAAAAAAAAAAA", "bob", "pw"⟩
    ⟨List.replicate 16 0⟩ ⟨some "alice", "Some session...", true⟩
    (by decide) (by decide) (by decide)

/-- C6 (amended): for every input string the decoder actually rejects,
the authenticate and read-state handlers return the identical 400
malformed-id body and return their stores unchanged (the response does not
depend on the store). The original claim's example "empty string" is not
such an input: the decoder accepts it (see the counterexample). -/
theorem c6_malformed_uniform (st1 st2 : Store) (form : AuthenticateForm)
    (s : String)
    (h1 : SessionId.tryFrom form.session_id = none)
    (h2 : SessionId.tryFrom s = none) :
    post_authenticate st1 form =
        (⟨400, "\x7b\"error\":\"malformed session id\"\x7d"⟩, st1) ∧
      get_session_state st2 s =
        (⟨400, "\x7b\"error\":\"malformed session id\"\x7d"⟩, st2) := by
  constructor
  · simp only [post_authenticate, h1]
  · simp only [get_session_state, h2]

theorem c6_witness :
    post_authenticate [] ⟨"!", "alice", "pw"⟩ =
        (⟨400, "\x7b\"error\":\"malformed session id\"\x7d"⟩, []) ∧
      get_session_state [] "!" =
        (⟨400, "\x7b\"error\":\"malformed session id\"\x7d"⟩, []) :=
  c6_malformed_uniform [] [] ⟨"!", "alice", "pw"⟩ "!" (by decide) (by decide)

/-- C6 counterexample: the empty string is not classified malformed by the
decoder (it decodes to 0 bytes and is zero-padded), so both handlers
answer with the not-found error rather than the malformed-id error the
claim requires for it. -/
theorem c6_counterexample :
    SessionId.tryFrom "" ≠ none ∧
      post_authenticate [] ⟨"", "alice", "pw"⟩ =
        (⟨400, "\x7b\"error\":\"session  doesn't exist\"\x7d"⟩, []) ∧
      get_session_state [] "" =
        (⟨400, "\x7b\"error\":\"session  doesn't exist\"\x7d"⟩, []) := by
  decide

/-- C7: the read-state handler never mutates any session or the store:
`stAny` and `sAny` are arbitrary and unconstrained by the hypotheses, so
the first two conjuncts give purity and idempotence under repetition for
every store (including the empty initial store) and every input string
(present, absent or malformed identifier). The hypotheses gate only the
third conjunct, the inherently conditional present-identifier response:
200 with the serde JSON of the session (`user` nullable, `description`,
`authenticated`) and the store unchanged. -/
theorem c7_read_state_pure (st stAny : Store) (s sAny : String)
    (sid : SessionId) (sess : Session)
    (hdec : SessionId.tryFrom s = some sid)
    (hget : Store.get st sid = some sess) :
    (get_session_state stAny sAny).2 = stAny ∧
      get_session_state (get_session_state stAny sAny).2 sAny =
        get_session_state stAny sAny ∧
      get_session_state st s = (⟨200, sessionToJson sess⟩, st) := by
  refine ⟨get_session_state_snd stAny sAny, ?_, ?_⟩
  · rw [get_session_state_snd stAny sAny]
  · simp only [get_session_state, hdec, hget]

theorem c7_witness :
    (get_session_state [] "!").2 = [] ∧
      get_session_state (get_session_state [] "!").2 "!" =
        get_session_state [] "!" ∧
      get_session_state
          [(⟨List.replicate 16 0⟩, ⟨some "alice", "Some session...", true⟩)]
          "AAAAAAAAAAAAAAAAAAAAAA" =
        (⟨200, sessionToJson ⟨some "alice", "Some session...", true⟩⟩,
         [(⟨List.replicate 16 0⟩, ⟨some "alice", "Some session...", true⟩)]) :=
  c7_read_state_pure
    [(⟨List.replicate 16 0⟩, ⟨some "alice", "Some session...", true⟩)] []
    "AAAAAAAAAAAAAAAAAAAAAA" "!"
    ⟨List.replicate 16 0⟩ ⟨some "alice", "Some session...", true⟩
    (by decide) (by decide)

/-- C4: creating a session with generated bytes `genId` returns 200 with
the base64 encoding of the identifier, inserts the fresh session
(`authenticated = false`, `user = None`, `description = "Some
session..."`), and an immediately following read-state call on the
returned identifier string reports `user = null`, `authenticated = false`
without changing the store. -/
theorem c4_create_then_read (st : Store) (genId : List Nat)
    (hlen : genId.length = 16) (hb : ∀ b ∈ genId, b < 256) :
    (post_new_session genId st).1 =
      ⟨200, "\x7b\"id_base64\":\"" ++ b64encode genId ++ "\"\x7d"⟩ ∧
      Store.get (post_new_session genId st).2 ⟨genId⟩ =
        some ⟨none, "Some session...", false⟩ ∧
      get_session_state (post_new_session genId st).2 (b64encode genId) =
        (⟨200,
          "\x7b\"user\":null,\"description\":\"Some session...\",\"authenticated\":false\x7d"⟩,
         (post_new_session genId st).2) := by
  have hesc := jsonEscape_b64encode genId (encodeChunks_lt genId hb)
  have hget : Store.get (post_new_session genId st).2 ⟨genId⟩ =
      some ⟨none, "Some session...", false⟩ := by
    simp only [post_new_session]
    exact Store.get_insert_self st ⟨genId⟩ _
  refine ⟨?_, hget, ?_⟩
  · simp only [post_new_session, hesc]
  · simp only [get_session_state, tryFrom_b64encode genId hlen hb, hget]
    have hjson : sessionToJson ⟨none, "Some session...", false⟩ =
        "\x7b\"user\":null,\"description\":\"Some session...\",\"authenticated\":false\x7d" := by
      decide
    rw [hjson]

theorem c4_witness :
    (post_new_session (List.replicate 16 0) []).1 =
      ⟨200, "\x7b\"id_base64\":\"" ++ b64encode (List.replicate 16 0) ++ "\"\x7d"⟩ ∧
      Store.get (post_new_session (List.replicate 16 0) []).2
          ⟨List.replicate 16 0⟩ =
        some ⟨none, "Some session...", false⟩ ∧
      get_session_state (post_new_session (List.replicate 16 0) []).2
          (b64encode (List.replicate 16 0)) =
        (⟨200,
          "\x7b\"user\":null,\"description\":\"Some session...\",\"authenticated\":false\x7d"⟩,
         (post_new_session (List.replicate 16 0) []).2) :=
  c4_create_then_read [] (List.replicate 16 0) (by decide) (by decide)

/-- C8 (amended): presence of every stored key is preserved by all three
operations unconditionally: read-state never changes the store at all
(first conjunct, arbitrary store and input), authenticate keeps every
present key present (second conjunct, any store holding any entry), and
create keeps every present key present even when the generated identifier
collides (third conjunct — the colliding entry is overwritten, never
removed). Authenticate never resets an authenticated session (fourth
conjunct), and a create whose generated identifier is fresh leaves every
existing entry exactly unchanged (fifth conjunct). Each conjunct's store
is constrained only by the hypotheses it needs: `st1` holds an arbitrary
entry, `st2` an authenticated entry, `st3` is arbitrary, `st4` holds an
entry and its generated identifier is fresh. The unamended claim fails
because a colliding create overwrites the existing entry with a fresh
unauthenticated session (see the counterexample). -/
theorem c8_invariants_preserved
    (st1 : Store) (form1 : AuthenticateForm) (genId1 : List Nat)
    (k1 : SessionId) (v1 : Session)
    (st2 : Store) (form2 : AuthenticateForm) (k2 : SessionId) (v2 : Session)
    (st3 : Store) (s3 : String)
    (st4 : Store) (genId4 : List Nat) (k4 : SessionId) (v4 : Session)
    (hk1 : Store.get st1 k1 = some v1)
    (hk2 : Store.get st2 k2 = some v2)
    (hauth2 : v2.authenticated = true)
    (hk4 : Store.get st4 k4 = some v4)
    (hfresh4 : Store.get st4 ⟨genId4⟩ = none) :
    (get_session_state st3 s3).2 = st3 ∧
      (Store.get (post_authenticate st1 form1).2 k1).isSome = true ∧
      (Store.get (post_new_session genId1 st1).2 k1).isSome = true ∧
      Store.get (post_authenticate st2 form2).2 k2 = some v2 ∧
      Store.get (post_new_session genId4 st4).2 k4 = some v4 := by
  have hkne4 : k4 ≠ ⟨genId4⟩ := by
    intro h
    rw [h, hfresh4] at hk4
    exact Option.noConfusion hk4
  have hcreate1 : (post_new_session genId1 st1).2 =
      Store.insert st1 ⟨genId1⟩ ⟨none, "Some session...", false⟩ := rfl
  have hcreate4 : (post_new_session genId4 st4).2 =
      Store.insert st4 ⟨genId4⟩ ⟨none, "Some session...", false⟩ := rfl
  refine ⟨get_session_state_snd st3 s3, ?_, ?_, ?_, ?_⟩
  · rcases post_authenticate_store_cases st1 form1 with
      hsame | ⟨sid, sess, _, _, _, hins⟩
    · rw [hsame, hk1]
      rfl
    · rw [hins]
      obtain ⟨w, hw⟩ := Store.get_insert_isSome st1 sid k1 _ v1 hk1
      rw [hw]
      rfl
  · rw [hcreate1]
    obtain ⟨w, hw⟩ := Store.get_insert_isSome st1 ⟨genId1⟩ k1
      ⟨none, "Some session...", false⟩ v1 hk1
    rw [hw]
    rfl
  · rcases post_authenticate_store_cases st2 form2 with
      hsame | ⟨sid, sess, _, hg, hu, hins⟩
    · rw [hsame]; exact hk2
    · have hne : k2 ≠ sid := by
        intro h
        rw [h, hg] at hk2
        cases hk2
        rw [hauth2] at hu
        exact Bool.noConfusion hu
      rw [hins, Store.get_insert_ne st2 sid k2 _ hne]
      exact hk2
  · rw [hcreate4, Store.get_insert_ne st4 ⟨genId4⟩ k4 _ hkne4]
    exact hk4

theorem c8_witness :
    (get_session_state [] "").2 = [] ∧
      (Store.get (post_authenticate
          [(⟨List.replicate 16 0⟩, ⟨none, "Some session...", false⟩)]
          ⟨"AAAAAAAAAAAAAAAAAAAAAA", "alice", "p"⟩).2
          ⟨List.replicate 16 0⟩).isSome = true ∧
      (Store.get (post_new_session (List.replicate 16 0)
          [(⟨List.replicate 16 0⟩, ⟨none, "Some session...", false⟩)]).2
          ⟨List.replicate 16 0⟩).isSome = true ∧
      Store.get (post_authenticate
          [(⟨List.replicate 16 0⟩, ⟨some "alice", "Some session...", true⟩)]
          ⟨"AAAAAAAAAAAAAAAAAAAAAA", "bob", "q"⟩).2
          ⟨List.replicate 16 0⟩ =
        some ⟨some "alice", "Some session...", true⟩ ∧
      Store.get (post_new_session (List.replicate 15 0 ++ [1])
          [(⟨List.replicate 16 0⟩, ⟨some "alice", "Some session...", true⟩)]).2
          ⟨List.replicate 16 0⟩ =
        some ⟨some "alice", "Some session...", true⟩ :=
  c8_invariants_preserved
    [(⟨List.replicate 16 0⟩, ⟨none, "Some session...", false⟩)]
    ⟨"AAAAAAAAAAAAAAAAAAAAAA", "alice", "p"⟩ (List.replicate 16 0)
    ⟨List.replicate 16 0⟩ ⟨none, "Some session...", false⟩
    [(⟨List.replicate 16 0⟩, ⟨some "alice", "Some session...", true⟩)]
    ⟨"AAAAAAAAAAAAAAAAAAAAAA", "bob", "q"⟩
    ⟨List.replicate 16 0⟩ ⟨some "alice", "Some session...", true⟩
    [] ""
    [(⟨List.replicate 16 0⟩, ⟨some "alice", "Some session...", true⟩)]
    (List.replicate 15 0 ++ [1])
    ⟨List.replicate 16 0⟩ ⟨some "alice", "Some session...", true⟩
    (by decide) (by decide) (by decide) (by decide) (by decide)

/-- C8 counterexample: a create whose generated identifier collides with
an existing authenticated session overwrites it, resetting `authenticated`
from true to false and losing `user` — so not every operation preserves
the claimed invariant. -/
theorem c8_counterexample :
    Store.get
        [(⟨List.replicate 16 0⟩, ⟨some "alice", "Some session...", true⟩)]
        ⟨List.replicate 16 0⟩ =
      some ⟨some "alice", "Some session...", true⟩ ∧
      Store.get (post_new_session (List.replicate 16 0)
          [(⟨List.replicate 16 0⟩, ⟨some "alice", "Some session...", true⟩)]).2
          ⟨List.replicate 16 0⟩ =
        some ⟨none, "Some session...", false⟩ := by
  decide

/-- C9: any serialization of N >= 1 authenticate calls that all reference
the same present, unauthenticated session yields exactly one 200 success
(the first in the serialization order) and N-1 already-authenticated 400
failures for all the others, each echoing its own `session_id` string. -/
theorem c9_exactly_one_success (f : AuthenticateForm)
    (rest : List AuthenticateForm) (st : Store) (sid : SessionId)
    (sess : Session)
    (hf : SessionId.tryFrom f.session_id = some sid)
    (hrest : ∀ g ∈ rest, SessionId.tryFrom g.session_id = some sid)
    (hget : Store.get st sid = some sess)
    (hfresh : sess.authenticated = false) :
    (runAuths st (f :: rest)).1 =
      ⟨200, "\x7b\"success\":\"session " ++ f.session_id ++
            " authenticated succesfully\"\x7d"⟩ ::
        rest.map (fun g =>
          ⟨400, "\x7b\"error\":\"session " ++ g.session_id ++
                " already authenticated\"\x7d"⟩) ∧
      List.countP (fun r => r.status == 200) (runAuths st (f :: rest)).1 = 1 := by
  have h1 : post_authenticate st f =
      (⟨200, "\x7b\"success\":\"session " ++ f.session_id ++
             " authenticated succesfully\"\x7d"⟩,
       Store.insert st sid
         { sess with authenticated := true, user := some f.user }) := by
    simp only [post_authenticate, hf, hget, hfresh, Bool.false_eq_true, if_false]
  have hget1 : Store.get
      (Store.insert st sid
        { sess with authenticated := true, user := some f.user }) sid =
      some { sess with authenticated := true, user := some f.user } :=
    Store.get_insert_self st sid _
  have h2 := runAuths_already rest
    (Store.insert st sid { sess with authenticated := true, user := some f.user })
    sid { sess with authenticated := true, user := some f.user }
    hrest hget1 rfl
  have hfst : (runAuths st (f :: rest)).1 =
      ⟨200, "\x7b\"success\":\"session " ++ f.session_id ++
            " authenticated succesfully\"\x7d"⟩ ::
        rest.map (fun g =>
          ⟨400, "\x7b\"error\":\"session " ++ g.session_id ++
                " already authenticated\"\x7d"⟩) := by
    simp only [runAuths, h1, h2]
  refine ⟨hfst, ?_⟩
  rw [hfst]
  simp [List.countP_cons, List.countP_map, Function.comp]

theorem c9_witness :
    (runAuths [(⟨List.replicate 16 0⟩, ⟨none, "Some session...", false⟩)]
        (⟨"AAAAAAAAAAAAAAAAAAAAAA", "alice", "p"⟩ ::
         [⟨"AAAAAAAAAAAAAAAAAAAAAA", "bob", "q"⟩, ⟨"AA", "carol", "r"⟩])).1 =
      ⟨200, "\x7b\"success\":\"session " ++ "AAAAAAAAAAAAAAAAAAAAAA" ++
            " authenticated succesfully\"\x7d"⟩ ::
        List.map (fun g : AuthenticateForm =>
          (⟨400, "\x7b\"error\":\"session " ++ g.session_id ++
                 " already authenticated\"\x7d"⟩ : HttpResponse))
          ([⟨"AAAAAAAAAAAAAAAAAAAAAA", "bob", "q"⟩, ⟨"AA", "carol", "r"⟩] :
            List AuthenticateForm) ∧
      List.countP (fun r => r.status == 200)
        (runAuths [(⟨List.replicate 16 0⟩, ⟨none, "Some session...", false⟩)]
          (⟨"AAAAAAAAAAAAAAAAAAAAAA", "alice", "p"⟩ ::
           [⟨"AAAAAAAAAAAAAAAAAAAAAA", "bob", "q"⟩, ⟨"AA", "carol", "r"⟩])).1 = 1 :=
  c9_exactly_one_success
    ⟨"AAAAAAAAAAAAAAAAAAAAAA", "alice", "p"⟩
    [⟨"AAAAAAAAAAAAAAAAAAAAAA", "bob", "q"⟩, ⟨"AA", "carol", "r"⟩]
    [(⟨List.replicate 16 0⟩, ⟨none, "Some session...", false⟩)]
    ⟨List.replicate 16 0⟩ ⟨none, "Some session...", false⟩
    (by decide) (by decide) (by decide) (by decide)

end TkAuth
